import Mathlib

/-!
# Verification of the firmware build orchestration in `http_main.py`

A shallow embedding of the firmware-build workflow of the aily config
service: the gateway adapter functions (`req_gen_firmware`, `req_gen_status`,
`req_download_firmware`), the background poll loop (`get_firmware`), and the
two HTTP handlers that drive them (`post_asr`, `get_asr_status`).

Modelling conventions:
* A response of the remote build gateway is either a transport-level fault
  (the `requests` call raises) or a response with an integer status code and
  a body.  For the create/status endpoints the body is `Option Json`
  (`none` models text that `res.json()` cannot parse); for the download
  endpoint the body is raw bytes.
* Python exceptions are modelled with `Except PyErr`: a `.error` result is an
  exception propagating out of the function, a `.ok` result is a normal
  return (`Option` models a possibly-`None` Python value).
* The unbounded `while True` loop of `get_firmware` is modelled with fuel:
  the poll responses arrive as a script `Nat → GwResponse`, and running out
  of fuel (`none` result) means the loop had not terminated after `fuel`
  iterations.
* Side effects are explicit: the local filesystem is a map
  `String → Option (List Nat)` threaded through, and each run produces a
  trace of events (sleeps, status calls, download calls).
-/

/-- A minimal JSON value, as produced by `res.json()`. -/
inductive Json where
  | null : Json
  | num (n : Int) : Json
  | str (s : String) : Json
  | obj (fields : List (String × Json)) : Json

/-- Python exceptions that the embedded code can raise. -/
inductive PyErr where
  | keyError (k : String) : PyErr
  | typeError : PyErr
  | jsonDecodeError : PyErr
  | connectionError : PyErr
  deriving DecidableEq

/-- Python subscripting `j[k]`: a `KeyError` on a dict without the key,
a `TypeError` on a non-dict. -/
def Json.getKey : Json → String → Except PyErr Json
  | .obj fields, k =>
    match fields.lookup k with
    | some v => Except.ok v
    | none => Except.error (PyErr.keyError k)
  | _, _ => Except.error PyErr.typeError

/-- The gateway's answer to one create or status request: either the
`requests` call raises (transport fault) or a response arrives with a
status code and a body (`none` = body that is not valid JSON). -/
inductive GwResponse where
  | err : GwResponse
  | resp (status_code : Nat) (body : Option Json) : GwResponse

/-- The gateway's answer to one download request: transport fault, or a
response with a status code and binary content. -/
inductive DlResponse where
  | err : DlResponse
  | resp (status_code : Nat) (content : List Nat) : DlResponse

/-- The local filesystem: path to file content. -/
def FileStore : Type := String → Option (List Nat)

/-- `open(path, "wb")` followed by `f.write(content)`: overwrites `path`,
leaves every other path unchanged. -/
def writeFile (fs : FileStore) (path : String) (content : List Nat) : FileStore :=
  fun p => if p = path then some content else fs p

/-- `req_gen_firmware` (http_main.py:152-164): POST the build request; on a
non-200 response log and return `None`; otherwise parse the body and return
`res.json()["data"]["id"]`.  A transport fault or a parse/key failure
propagates as an exception. -/
def req_gen_firmware (res : GwResponse) : Except PyErr (Option Json) :=
  match res with
  | .err => Except.error PyErr.connectionError
  | .resp code body =>
    if code ≠ 200 then Except.ok none
    else
      match body with
      | none => Except.error PyErr.jsonDecodeError
      | some req_data =>
        match req_data.getKey "data" with
        | .error e => Except.error e
        | .ok d =>
          match d.getKey "id" with
          | .error e => Except.error e
          | .ok gen_id => Except.ok (some gen_id)

/-- `req_gen_status` (http_main.py:167-177): GET the status; on a non-200
response log and return `None`; otherwise return
`res.json()["data"]["status"]`.  A transport fault or a parse/key failure
propagates as an exception. -/
def req_gen_status (res : GwResponse) : Except PyErr (Option Json) :=
  match res with
  | .err => Except.error PyErr.connectionError
  | .resp code body =>
    if code ≠ 200 then Except.ok none
    else
      match body with
      | none => Except.error PyErr.jsonDecodeError
      | some req_data =>
        match req_data.getKey "data" with
        | .error e => Except.error e
        | .ok d =>
          match d.getKey "status" with
          | .error e => Except.error e
          | .ok st => Except.ok (some st)

/-- `save_path` (http_main.py:191): `f"{firmware_path_root}/{gen_id}.bin"`. -/
def save_path (firmware_path_root gen_id : String) : String :=
  firmware_path_root ++ "/" ++ gen_id ++ ".bin"

/-- `req_download_firmware` (http_main.py:180-195): GET the binary; on a
non-200 response log and return `None` without touching the filesystem;
otherwise write `res.content` to `{root}/{gen_id}.bin` and return that
path.  A transport fault propagates as an exception. -/
def req_download_firmware (res : DlResponse) (firmware_path_root gen_id : String)
    (fs : FileStore) : Except PyErr (Option String) × FileStore :=
  match res with
  | .err => (Except.error PyErr.connectionError, fs)
  | .resp code content =>
    if code ≠ 200 then (Except.ok none, fs)
    else
      let path := save_path firmware_path_root gen_id
      (Except.ok (some path), writeFile fs path content)

/-- Python `gen_status == n` where `gen_status` is the value returned by
`req_gen_status` (`None` or a JSON value) and `n` an integer literal. -/
def statusIs (st : Option Json) (n : Int) : Bool :=
  match st with
  | some (.num m) => m == n
  | _ => false

/-- Observable events of one background run: the `time.sleep(5)` delays,
the status calls and the download calls issued against the gateway. -/
inductive Ev where
  | sleepDelay (secs : Nat) : Ev
  | statusCall : Ev
  | downloadCall : Ev
  deriving DecidableEq

/-- Outcome of the `while True` poll loop in `get_firmware`. -/
inductive LoopOutcome where
  | success : LoopOutcome
  | failure : LoopOutcome
  | aborted (e : PyErr) : LoopOutcome
  | outOfFuel : LoopOutcome
  deriving DecidableEq

/-- The `while True` loop of `get_firmware` (http_main.py:201-212): each
iteration sleeps 5 seconds, queries the status (`script i` is the gateway's
answer to the i-th query), breaks with failure on `== 3`, breaks with
success on `== 2`, and otherwise continues.  An exception raised by the
status call propagates (`aborted`).  Returns the event trace and the
outcome; `outOfFuel` means the loop was still running after `fuel`
iterations. -/
def pollLoop (script : Nat → GwResponse) (i : Nat) : Nat → List Ev × LoopOutcome
  | 0 => ([], LoopOutcome.outOfFuel)
  | fuel + 1 =>
    match req_gen_status (script i) with
    | .error e => ([Ev.sleepDelay 5, Ev.statusCall], LoopOutcome.aborted e)
    | .ok gen_status =>
      if statusIs gen_status 3 then
        ([Ev.sleepDelay 5, Ev.statusCall], LoopOutcome.failure)
      else if statusIs gen_status 2 then
        ([Ev.sleepDelay 5, Ev.statusCall], LoopOutcome.success)
      else
        let rest := pollLoop script (i + 1) fuel
        (Ev.sleepDelay 5 :: Ev.statusCall :: rest.1, rest.2)

/-- `get_firmware` (http_main.py:198-218): run the poll loop; on success
download the firmware and return its path, otherwise return `None`.  The
result is `none` when the loop had not terminated within `fuel`
iterations; otherwise it carries the Python return value (or propagated
exception) and the final filesystem. -/
def get_firmware (script : Nat → GwResponse) (dl : DlResponse)
    (firmware_path_root gen_id : String) (fuel : Nat) (fs : FileStore) :
    List Ev × Option (Except PyErr (Option String) × FileStore) :=
  let r := pollLoop script 0 fuel
  match r.2 with
  | .outOfFuel => (r.1, none)
  | .aborted e => (r.1, some (Except.error e, fs))
  | .failure => (r.1, some (Except.ok none, fs))
  | .success =>
    let d := req_download_firmware dl firmware_path_root gen_id fs
    (r.1 ++ [Ev.downloadCall], some (d.1, d.2))

/-- The JSON envelope `ResponseModel` (http_main.py:28-31), with `data`
restricted to the values these handlers put in it. -/
structure ResponseModel where
  status : Nat
  message : String
  data : Option Json

/-- `post_asr` (http_main.py:221-228): call `req_gen_firmware`, then
unconditionally schedule `get_firmware` as a background task for the
returned id, and answer `{"id": gen_id}`.  Returns the response data
together with the list of ids a poller task was scheduled for. -/
def post_asr (createRes : GwResponse) :
    Except PyErr (Option Json × List (Option Json)) :=
  match req_gen_firmware createRes with
  | .error e => Except.error e
  | .ok gen_id => Except.ok (gen_id, [gen_id])

/-- `get_asr_status` (http_main.py:231-235): answer
`ResponseModel(data=req_gen_status(prj_name))`; the status call is issued
fresh against the gateway (`res` is its answer), no poller state is read. -/
def get_asr_status (res : GwResponse) : Except PyErr ResponseModel :=
  match req_gen_status res with
  | .error e => Except.error e
  | .ok st => Except.ok { status := 200, message := "success", data := st }

/-! ## Helper lemmas -/

lemma statusIs_eq_true_iff (st : Option Json) (n : Int) :
    statusIs st n = true ↔ st = some (Json.num n) := by
  cases st with
  | none => simp [statusIs]
  | some j =>
    cases j <;> simp [statusIs]

lemma writeFile_self (fs : FileStore) (path : String) (c : List Nat) :
    writeFile fs path c path = some c := by
  simp [writeFile]

lemma writeFile_writeFile (fs : FileStore) (path : String) (b1 b2 : List Nat) :
    writeFile (writeFile fs path b1) path b2 = writeFile fs path b2 := by
  funext q
  by_cases hq : q = path <;> simp [writeFile, hq]

/-! ## C1 -/

/-- C1: evidence that the claim fails on the code.  When the gateway's
create call fails (here: a 500 response), `post_asr` does answer a null
id, but `background_tasks.add_task(get_firmware, gen_id)` is executed
unconditionally, so exactly one poller task (for the null id) is
scheduled — not zero as the claim states. -/
theorem c1_create_failure_still_schedules_poller :
    post_asr (GwResponse.resp 500 none) = Except.ok (none, [none]) ∧
    [(none : Option Json)].length = 1 :=
  ⟨rfl, rfl⟩

/-! ## C8 -/

/-- C8: the persist step of `req_download_firmware` writes the downloaded
bytes to the deterministic path `{root}/{gen_id}.bin`; persisting twice at
the same id overwrites, leaving only the latest content there and every
other path untouched. -/
theorem c8_persist_path_deterministic_and_overwrites
    (root gen_id : String) (b1 b2 content : List Nat) (fs : FileStore) :
    save_path root gen_id = root ++ "/" ++ gen_id ++ ".bin"
    ∧ (req_download_firmware (DlResponse.resp 200 content) root gen_id fs).2
        = writeFile fs (save_path root gen_id) content
    ∧ writeFile (writeFile fs (save_path root gen_id) b1) (save_path root gen_id) b2
        = writeFile fs (save_path root gen_id) b2
    ∧ writeFile fs (save_path root gen_id) b2 (save_path root gen_id) = some b2
    ∧ (∀ q, q ≠ save_path root gen_id →
        writeFile fs (save_path root gen_id) b2 q = fs q) := by
  refine ⟨rfl, rfl, writeFile_writeFile fs _ b1 b2, writeFile_self fs _ b2, ?_⟩
  intro q hq
  simp [writeFile, hq]

/-- C8 witness: the theorem applied at concrete inputs, the final
hypothesis discharged at the path "other". -/
theorem c8_persist_witness :
    writeFile (fun _ => none) (save_path "fw" "abc123") [1] "other" = none :=
  (c8_persist_path_deterministic_and_overwrites "fw" "abc123" [0] [1] [1]
    (fun _ => none)).2.2.2.2 "other" (by decide)

/-! ## C9 -/

/-- C9: counterexample to the claim as stated.  The adapter's error branch
tests `status_code != 200`, not "non-2xx": a 201 response — a 2xx success
response — whose JSON body lacks the expected keys takes the error branch
and returns `None` without raising any exception, contrary to the claim
that every malformed 2xx response raises. -/
theorem c9_counterexample :
    req_gen_status (GwResponse.resp 201 (some (Json.obj []))) = Except.ok none
    ∧ req_gen_firmware (GwResponse.resp 201 (some (Json.obj []))) = Except.ok none
    ∧ 200 ≤ 201 ∧ 201 < 300 :=
  ⟨rfl, rfl, by decide, by decide⟩

/-- C9 (amended): the error branch covers exactly the non-200 status
codes, and a 200 create or status response whose JSON body lacks the
expected "data"/"id" (resp. "data"/"status") keys makes `req_gen_firmware`
and `req_gen_status` raise an uncaught exception instead of returning
`None`. -/
theorem c9_malformed_200_response_raises :
    (∀ (code : Nat) (body : Option Json), code ≠ 200 →
        req_gen_firmware (GwResponse.resp code body) = Except.ok none
        ∧ req_gen_status (GwResponse.resp code body) = Except.ok none)
    ∧ (∀ (j : Json) (e : PyErr), j.getKey "data" = Except.error e →
        req_gen_firmware (GwResponse.resp 200 (some j)) = Except.error e
        ∧ req_gen_status (GwResponse.resp 200 (some j)) = Except.error e)
    ∧ (∀ (j d : Json) (e : PyErr), j.getKey "data" = Except.ok d →
        d.getKey "id" = Except.error e →
        req_gen_firmware (GwResponse.resp 200 (some j)) = Except.error e)
    ∧ (∀ (j d : Json) (e : PyErr), j.getKey "data" = Except.ok d →
        d.getKey "status" = Except.error e →
        req_gen_status (GwResponse.resp 200 (some j)) = Except.error e) := by
  refine ⟨?_, ?_, ?_, ?_⟩
  · intro code body hc
    constructor <;> simp [req_gen_firmware, req_gen_status, hc]
  · intro j e hj
    constructor <;> simp [req_gen_firmware, req_gen_status, hj]
  · intro j d e hj hd
    simp [req_gen_firmware, hj, hd]
  · intro j d e hj hd
    simp [req_gen_status, hj, hd]

/-- C9 witness: a 200 response whose body is the empty JSON object makes
the create adapter raise `KeyError("data")`. -/
theorem c9_malformed_200_witness :
    req_gen_firmware (GwResponse.resp 200 (some (Json.obj []))) =
      Except.error (PyErr.keyError "data") :=
  (c9_malformed_200_response_raises.2.1 (Json.obj []) (PyErr.keyError "data") rfl).1

/-! ## C10 -/

/-- C10: on a failed download the filesystem is untouched.  A non-2xx
response satisfies `code ≠ 200`, so it takes the error branch:
`req_download_firmware` returns `None` and the filesystem is returned
unchanged (no file opened or written); a transport fault likewise leaves
the filesystem unchanged.  The write happens only in the `code = 200`
branch, so the artifact file is created only on a successful response. -/
theorem c10_failed_download_leaves_storage_unchanged :
    (∀ (code : Nat) (content : List Nat) (root gen_id : String) (fs : FileStore),
      code ≠ 200 →
      req_download_firmware (DlResponse.resp code content) root gen_id fs
        = (Except.ok none, fs))
    ∧ (∀ (root gen_id : String) (fs : FileStore),
      req_download_firmware DlResponse.err root gen_id fs
        = (Except.error PyErr.connectionError, fs)) := by
  constructor
  · intro code content root gen_id fs hc
    simp [req_download_firmware, hc]
  · intro root gen_id fs
    rfl

/-- C10 witness: a 404 download response returns `None` and leaves the
empty filesystem unchanged. -/
theorem c10_failed_download_witness :
    req_download_firmware (DlResponse.resp 404 [7]) "fw" "abc" (fun _ => none)
      = (Except.ok none, fun _ => none) :=
  c10_failed_download_leaves_storage_unchanged.1 404 [7] "fw" "abc" (fun _ => none)
    (by decide)

/-! ## Poll loop step lemmas -/

lemma pollLoop_abort (script : Nat → GwResponse) (i fuel : Nat) (e : PyErr)
    (h : req_gen_status (script i) = Except.error e) :
    pollLoop script i (fuel + 1)
      = ([Ev.sleepDelay 5, Ev.statusCall], LoopOutcome.aborted e) := by
  simp [pollLoop, h]

lemma pollLoop_fail (script : Nat → GwResponse) (i fuel : Nat)
    (h : req_gen_status (script i) = Except.ok (some (Json.num 3))) :
    pollLoop script i (fuel + 1)
      = ([Ev.sleepDelay 5, Ev.statusCall], LoopOutcome.failure) := by
  simp [pollLoop, h, statusIs]

lemma pollLoop_ok (script : Nat → GwResponse) (i fuel : Nat)
    (h : req_gen_status (script i) = Except.ok (some (Json.num 2))) :
    pollLoop script i (fuel + 1)
      = ([Ev.sleepDelay 5, Ev.statusCall], LoopOutcome.success) := by
  simp [pollLoop, h, statusIs]

lemma pollLoop_cont (script : Nat → GwResponse) (i fuel : Nat) (st : Option Json)
    (h : req_gen_status (script i) = Except.ok st)
    (h3 : statusIs st 3 = false) (h2 : statusIs st 2 = false) :
    pollLoop script i (fuel + 1)
      = (Ev.sleepDelay 5 :: Ev.statusCall :: (pollLoop script (i + 1) fuel).1,
         (pollLoop script (i + 1) fuel).2) := by
  simp [pollLoop, h, h3, h2]

lemma pollLoop_count_download (script : Nat → GwResponse) (fuel : Nat) : ∀ i : Nat,
    ((pollLoop script i fuel).1).count Ev.downloadCall = 0 := by
  induction fuel with
  | zero => intro i; simp [pollLoop]
  | succ n ih =>
    intro i
    cases h : req_gen_status (script i) with
    | error e => rw [pollLoop_abort script i n e h]; simp
    | ok st =>
      by_cases h3 : statusIs st 3
      · rw [(statusIs_eq_true_iff st 3).mp h3] at h
        rw [pollLoop_fail script i n h]; simp
      · by_cases h2 : statusIs st 2
        · rw [(statusIs_eq_true_iff st 2).mp h2] at h
          rw [pollLoop_ok script i n h]; simp
        · rw [pollLoop_cont script i n st h (Bool.eq_false_iff.mpr h3)
            (Bool.eq_false_iff.mpr h2)]
          simp [List.count_cons, ih (i + 1)]

/-- A 200 gateway status response whose body is `{"data": {"status": n}}`. -/
def stResp (n : Int) : GwResponse :=
  GwResponse.resp 200
    (some (Json.obj [("data", Json.obj [("status", Json.num n)])]))

/-! ## C2 -/

/-- C2: classification of observed status values in the poll loop.  A
status of 2 terminates the loop with success and makes `get_firmware`
invoke the download-and-persist step then stop; a status of 3 terminates
the loop with failure and `get_firmware` returns `None` with the
filesystem unchanged; every other observed value makes the loop run
another wait-then-poll cycle. -/
theorem c2_status_classification
    (script : Nat → GwResponse) (dl : DlResponse) (root gen_id : String)
    (fs : FileStore) (i fuel : Nat) (st : Option Json)
    (h : req_gen_status (script i) = Except.ok st) :
    (st = some (Json.num 2) →
      pollLoop script i (fuel + 1)
        = ([Ev.sleepDelay 5, Ev.statusCall], LoopOutcome.success))
    ∧ (st = some (Json.num 3) →
      pollLoop script i (fuel + 1)
        = ([Ev.sleepDelay 5, Ev.statusCall], LoopOutcome.failure))
    ∧ (st ≠ some (Json.num 2) → st ≠ some (Json.num 3) →
      pollLoop script i (fuel + 1)
        = (Ev.sleepDelay 5 :: Ev.statusCall :: (pollLoop script (i + 1) fuel).1,
           (pollLoop script (i + 1) fuel).2))
    ∧ (i = 0 → st = some (Json.num 2) →
      get_firmware script dl root gen_id (fuel + 1) fs
        = ([Ev.sleepDelay 5, Ev.statusCall, Ev.downloadCall],
           some (req_download_firmware dl root gen_id fs)))
    ∧ (i = 0 → st = some (Json.num 3) →
      get_firmware script dl root gen_id (fuel + 1) fs
        = ([Ev.sleepDelay 5, Ev.statusCall], some (Except.ok none, fs))) := by
  refine ⟨?_, ?_, ?_, ?_, ?_⟩
  · intro h2; subst h2; exact pollLoop_ok script i fuel h
  · intro h3; subst h3; exact pollLoop_fail script i fuel h
  · intro h2 h3
    refine pollLoop_cont script i fuel st h ?_ ?_
    · exact Bool.eq_false_iff.mpr (fun hb => h3 ((statusIs_eq_true_iff st 3).mp hb))
    · exact Bool.eq_false_iff.mpr (fun hb => h2 ((statusIs_eq_true_iff st 2).mp hb))
  · intro hi h2
    subst hi; subst h2
    simp [get_firmware, pollLoop_ok script 0 fuel h]
  · intro hi h3
    subst hi; subst h3
    simp [get_firmware, pollLoop_fail script 0 fuel h]

/-- C2 witness: a gateway that answers status 2 at once drives the loop to
success in one cycle. -/
theorem c2_status_classification_witness :
    pollLoop (fun _ => stResp 2) 0 (0 + 1)
      = ([Ev.sleepDelay 5, Ev.statusCall], LoopOutcome.success) :=
  (c2_status_classification (fun _ => stResp 2) DlResponse.err "fw" "g"
    (fun _ => none) 0 0 (some (Json.num 2)) rfl).1 rfl

/-! ## C3 -/

/-- C3: at most one download-and-persist invocation per poll run.  The
poll loop itself never downloads; `get_firmware` appends at most one
download event, exactly one when the loop ends in success and zero when it
ends in failure (in which case it returns `None` and leaves the filesystem
unchanged). -/
theorem c3_at_most_one_download
    (script : Nat → GwResponse) (dl : DlResponse) (root gen_id : String)
    (fuel : Nat) (fs : FileStore) :
    ((get_firmware script dl root gen_id fuel fs).1).count Ev.downloadCall ≤ 1
    ∧ ((pollLoop script 0 fuel).2 = LoopOutcome.success →
      ((get_firmware script dl root gen_id fuel fs).1).count Ev.downloadCall = 1)
    ∧ ((pollLoop script 0 fuel).2 = LoopOutcome.failure →
      ((get_firmware script dl root gen_id fuel fs).1).count Ev.downloadCall = 0
      ∧ get_firmware script dl root gen_id fuel fs
          = ((pollLoop script 0 fuel).1, some (Except.ok none, fs))) := by
  have hc := pollLoop_count_download script fuel 0
  cases ho : (pollLoop script 0 fuel).2 with
  | success =>
    refine ⟨?_, fun _ => ?_, fun hf => by simp at hf⟩
      <;> simp [get_firmware, ho, List.count_append, hc]
  | failure =>
    refine ⟨?_, fun hs => by simp at hs, fun _ => ⟨?_, ?_⟩⟩
      <;> simp [get_firmware, ho, hc]
  | aborted e =>
    refine ⟨?_, fun hs => by simp at hs, fun hf => by simp at hf⟩
    simp [get_firmware, ho, hc]
  | outOfFuel =>
    refine ⟨?_, fun hs => by simp at hs, fun hf => by simp at hf⟩
    simp [get_firmware, ho, hc]

/-- C3 witness: with an immediately succeeding gateway, exactly one
download event is in the trace. -/
theorem c3_at_most_one_download_witness :
    ((get_firmware (fun _ => stResp 2) DlResponse.err "fw" "g" 1
      (fun _ => none)).1).count Ev.downloadCall = 1 :=
  (c3_at_most_one_download (fun _ => stResp 2) DlResponse.err "fw" "g" 1
    (fun _ => none)).2.1 rfl

/-! ## C4 -/

/-- C4: the synchronous status endpoint is a fresh gateway query — in this
embedding `get_asr_status` is a function of the gateway's answer to that
query alone, no poller state is an input — and it fails with the
GatewayUnavailable-class outcome on a failing call: a transport fault
propagates as an exception, and a non-success (non-2xx) response yields
the null status value in the envelope. -/
theorem c4_status_query_is_fresh_and_fails_on_gateway_error :
    get_asr_status GwResponse.err = Except.error PyErr.connectionError
    ∧ (∀ (code : Nat) (body : Option Json), code < 200 ∨ 300 ≤ code →
      get_asr_status (GwResponse.resp code body)
        = Except.ok { status := 200, message := "success", data := none }) := by
  constructor
  · rfl
  · intro code body hcode
    have hc : code ≠ 200 := by omega
    simp [get_asr_status, req_gen_status, hc]

/-- C4 witness: a 503 gateway answer yields the null status. -/
theorem c4_status_query_witness :
    get_asr_status (GwResponse.resp 503 none)
      = Except.ok { status := 200, message := "success", data := none } :=
  c4_status_query_is_fresh_and_fails_on_gateway_error.2 503 none
    (Or.inr (by decide))

/-! ## C5 -/

/-- C5 counterexample: the claim as stated fails for transport errors.
With fuel for two iterations and a gateway whose status call raises a
transport fault, the loop issues exactly one status call and terminates —
the exception propagates out of `get_firmware` — instead of being
absorbed and retried as the claim asserts for transport errors. -/
theorem c5_transport_error_aborts_loop :
    pollLoop (fun _ => GwResponse.err) 0 2
      = ([Ev.sleepDelay 5, Ev.statusCall],
         LoopOutcome.aborted PyErr.connectionError)
    ∧ get_firmware (fun _ => GwResponse.err) DlResponse.err "fw" "g" 2
        (fun _ => none)
      = ([Ev.sleepDelay 5, Ev.statusCall],
         some (Except.error PyErr.connectionError, fun _ => none)) :=
  ⟨rfl, rfl⟩

/-- The trace of `n` wait-then-poll cycles. -/
def pollCycles : Nat → List Ev
  | 0 => []
  | n + 1 => Ev.sleepDelay 5 :: Ev.statusCall :: pollCycles n

lemma pollCycles_count_download (n : Nat) :
    (pollCycles n).count Ev.downloadCall = 0 := by
  induction n with
  | zero => rfl
  | succ m ih => simp [pollCycles, ih]

/-- C5 (amended): a status call answered with a non-200 response is
absorbed into the not-yet-terminal branch — the loop neither terminates
nor downloads and retries after the next fixed delay — so a gateway that
permanently answers non-200 makes the loop retry indefinitely: for every
fuel bound the run is `fuel` full cycles, still unterminated, with zero
download calls.  (A transport-level exception instead aborts the loop, per
the counterexample.) -/
theorem c5_non200_absorbed_and_retried
    (script : Nat → GwResponse)
    (h : ∀ j, ∃ c b, script j = GwResponse.resp c b ∧ c ≠ 200)
    (fuel i : Nat) (dl : DlResponse) (root gen_id : String) (fs : FileStore) :
    pollLoop script i fuel = (pollCycles fuel, LoopOutcome.outOfFuel)
    ∧ get_firmware script dl root gen_id fuel fs = (pollCycles fuel, none)
    ∧ (pollCycles fuel).count Ev.downloadCall = 0 := by
  have main : ∀ (f j : Nat),
      pollLoop script j f = (pollCycles f, LoopOutcome.outOfFuel) := by
    intro f
    induction f with
    | zero => intro j; rfl
    | succ n ih =>
      intro j
      obtain ⟨c, b, hs, hc⟩ := h j
      have hst : req_gen_status (script j) = Except.ok none := by
        rw [hs]; simp [req_gen_status, hc]
      rw [pollLoop_cont script j n none hst rfl rfl, ih (j + 1)]
      rfl
  refine ⟨main fuel i, ?_, pollCycles_count_download fuel⟩
  simp [get_firmware, main fuel 0]

/-- C5 witness: a gateway permanently answering 500 keeps the loop
unterminated through two full cycles. -/
theorem c5_non200_witness :
    pollLoop (fun _ => GwResponse.resp 500 none) 0 2
      = (pollCycles 2, LoopOutcome.outOfFuel) :=
  (c5_non200_absorbed_and_retried (fun _ => GwResponse.resp 500 none)
    (fun _ => ⟨500, none, rfl, by decide⟩) 2 0 DlResponse.err "fw" "g"
    (fun _ => none)).1

/-! ## C6 -/

/-- A scripted gateway serving the status sequence 1, 1, 1, 2. -/
def script1112 : Nat → GwResponse :=
  fun i => if i < 3 then stResp 1 else stResp 2

/-- C6: against the status sequence `[1,1,1,2]` the run makes exactly 4
status calls, each preceded by the fixed 5-second delay, then exactly 1
download call, and persists the downloaded bytes — for any remaining fuel,
so the run is independent of how much longer the loop could have gone. -/
theorem c6_sequence_1112_run (k : Nat) (root gen_id : String)
    (content : List Nat) (fs : FileStore) :
    get_firmware script1112 (DlResponse.resp 200 content) root gen_id (k + 4) fs
      = ([Ev.sleepDelay 5, Ev.statusCall, Ev.sleepDelay 5, Ev.statusCall,
          Ev.sleepDelay 5, Ev.statusCall, Ev.sleepDelay 5, Ev.statusCall,
          Ev.downloadCall],
         some (Except.ok (some (save_path root gen_id)),
               writeFile fs (save_path root gen_id) content))
    ∧ ((get_firmware script1112 (DlResponse.resp 200 content) root gen_id
        (k + 4) fs).1).count Ev.statusCall = 4
    ∧ ((get_firmware script1112 (DlResponse.resp 200 content) root gen_id
        (k + 4) fs).1).count Ev.downloadCall = 1 := by
  have P : pollLoop script1112 0 (k + 4)
      = ([Ev.sleepDelay 5, Ev.statusCall, Ev.sleepDelay 5, Ev.statusCall,
          Ev.sleepDelay 5, Ev.statusCall, Ev.sleepDelay 5, Ev.statusCall],
         LoopOutcome.success) := by
    rw [show k + 4 = (k + 3) + 1 from rfl,
        pollLoop_cont script1112 0 (k + 3) (some (Json.num 1)) rfl rfl rfl,
        show (0 : Nat) + 1 = 1 from rfl,
        show k + 3 = (k + 2) + 1 from rfl,
        pollLoop_cont script1112 1 (k + 2) (some (Json.num 1)) rfl rfl rfl,
        show (1 : Nat) + 1 = 2 from rfl,
        show k + 2 = (k + 1) + 1 from rfl,
        pollLoop_cont script1112 2 (k + 1) (some (Json.num 1)) rfl rfl rfl,
        show (2 : Nat) + 1 = 3 from rfl,
        pollLoop_ok script1112 3 k rfl]
  refine ⟨?_, ?_, ?_⟩ <;> simp [get_firmware, P, req_download_firmware]

/-! ## C7 -/

/-- A scripted gateway serving the status sequence 1, 3. -/
def script13 : Nat → GwResponse :=
  fun i => if i = 0 then stResp 1 else stResp 3

/-- C7: against the status sequence `[1,3]` the run makes exactly 2 status
calls and 0 download calls, returns `None` (no artifact path) and leaves
the filesystem unchanged — for any remaining fuel. -/
theorem c7_sequence_13_run (k : Nat) (dl : DlResponse) (root gen_id : String)
    (fs : FileStore) :
    get_firmware script13 dl root gen_id (k + 2) fs
      = ([Ev.sleepDelay 5, Ev.statusCall, Ev.sleepDelay 5, Ev.statusCall],
         some (Except.ok none, fs))
    ∧ ((get_firmware script13 dl root gen_id (k + 2) fs).1).count
        Ev.statusCall = 2
    ∧ ((get_firmware script13 dl root gen_id (k + 2) fs).1).count
        Ev.downloadCall = 0 := by
  have P : pollLoop script13 0 (k + 2)
      = ([Ev.sleepDelay 5, Ev.statusCall, Ev.sleepDelay 5, Ev.statusCall],
         LoopOutcome.failure) := by
    rw [show k + 2 = (k + 1) + 1 from rfl,
        pollLoop_cont script13 0 (k + 1) (some (Json.num 1)) rfl rfl rfl,
        show (0 : Nat) + 1 = 1 from rfl,
        pollLoop_fail script13 1 k rfl]
  refine ⟨?_, ?_, ?_⟩ <;> simp [get_firmware, P]
